/-
Verification of the retropanel live-state synchronization pipeline.

Shallow embedding of the C sources under src/code/ui/retropanel/src:
  data/data_model.{h,c}  — device/scene/room structs, demo_data_create
  data/data_store.c      — room store, data_store_apply_update, live flag
  net/mqtt_client.c      — ring buffers, topic parsing, on_message, drain
  net/command.c          — command dispatch gated on the live flag
  net/panel_config.c     — config validity
  app.c                  — boot sequence (try_live_boot, app_init)

Modelling conventions:
  - C strings become Lean String (strcmp equality = String equality;
    snprintf truncation into char[48] becomes String.take 47 where the
    written value could exceed the buffer).
  - C float fields become ℚ; the code only copies these values around and
    never computes with them, so any exact-value type is faithful.
  - uint8_t casts become reduction modulo 256.
  - C enums backed by int casts (health_status_t in updates) are kept as
    Int with named constants; enums never cast (domain, capability) are
    inductives.
  - The statically allocated, zero-initialised C globals become explicit
    values threaded through functions.
  - External collaborators (libcurl REST responses, cJSON parse results,
    the mosquitto connection) are modelled as inputs: rest_env_t carries
    what the REST endpoints would return, and on_message receives the
    cJSON parse result of the payload as an Option JVal.
-/
import Mathlib

set_option maxHeartbeats 1000000

set_option maxRecDepth 8000

set_option synthInstance.maxHeartbeats 400000

/- ── Data model (data/data_model.h) ───────────────────────────────── -/

/-- Device domains, matching the device_domain_t enum. -/
inductive device_domain_t where
  | DOMAIN_LIGHTING
  | DOMAIN_CLIMATE
  | DOMAIN_BLINDS
  | DOMAIN_AUDIO
  | DOMAIN_OTHER
deriving DecidableEq, BEq, Inhabited

/-- Device capabilities, matching the device_capability_t enum. -/
inductive device_capability_t where
  | CAP_ON_OFF
  | CAP_DIM
  | CAP_POSITION
  | CAP_TILT
  | CAP_TEMPERATURE_READ
  | CAP_TEMPERATURE_SET
  | CAP_COLOR_TEMP
  | CAP_SPEED
deriving DecidableEq, BEq, Inhabited

/-- health_status_t is an int-backed enum and the MQTT update path casts a
raw int into it, so we keep health values as Int with named constants. -/
def HEALTH_ONLINE : Int := 0

def HEALTH_OFFLINE : Int := 1

def HEALTH_DEGRADED : Int := 2

def HEALTH_UNKNOWN : Int := 3

/-- device_t from data_model.h.  Field defaults mirror the memset-to-zero
initialisation used throughout the C code.  capabilities holds the first
cap_count slots of the C array. -/
structure device_t where
  id : String := ""
  name : String := ""
  room_id : String := ""
  domain : device_domain_t := device_domain_t.DOMAIN_LIGHTING
  capabilities : List device_capability_t := []
  health : Int := HEALTH_ONLINE
  is_on : Bool := false
  level : Nat := 0
  position : Nat := 0
  tilt : Nat := 0
  temperature : ℚ := 0
  setpoint : ℚ := 0
deriving DecidableEq, Inhabited

/-- scene_t from data_model.h. -/
structure scene_t where
  id : String := ""
  name : String := ""
  room_id : String := ""
  colour : String := ""
  icon : String := ""
  enabled : Bool := false
  sort_order : Int := 0
deriving DecidableEq, Inhabited

/-- room_t from data_model.h. -/
structure room_t where
  id : String := ""
  name : String := ""
  device_count : Int := 0
  scene_count : Int := 0
  sort_order : Int := 0
deriving DecidableEq, Inhabited

/-- room_data_t from data_model.h; the C fixed arrays plus their counts
become lists whose length is the count. -/
structure room_data_t where
  room : room_t := {}
  devices : List device_t := []
  scenes : List scene_t := []
  active_scene_id : String := ""
deriving DecidableEq, Inhabited

/-- device_has_cap from data_model.c: linear scan of the capability array. -/
def device_has_cap (dev : device_t) (cap : device_capability_t) : Bool :=
  dev.capabilities.any (fun c => c == cap)

/-- demo_data_create from data_model.c: the hardcoded demo room. -/
def demo_data_create : room_data_t :=
  { room := { id := "room-living-1", name := "Living Room",
              device_count := 5, scene_count := 4, sort_order := 1 },
    devices :=
      [ { id := "light-living-ceiling", name := "Ceiling",
          room_id := "room-living-1", domain := device_domain_t.DOMAIN_LIGHTING,
          capabilities := [device_capability_t.CAP_ON_OFF, device_capability_t.CAP_DIM],
          health := HEALTH_ONLINE, is_on := true, level := 75 },
        { id := "light-living-floor", name := "Floor Lamp",
          room_id := "room-living-1", domain := device_domain_t.DOMAIN_LIGHTING,
          capabilities := [device_capability_t.CAP_ON_OFF, device_capability_t.CAP_DIM],
          health := HEALTH_ONLINE, is_on := true, level := 40 },
        { id := "light-living-reading", name := "Reading",
          room_id := "room-living-1", domain := device_domain_t.DOMAIN_LIGHTING,
          capabilities := [device_capability_t.CAP_ON_OFF],
          health := HEALTH_ONLINE, is_on := true, level := 100 },
        { id := "blind-living-main", name := "Blinds",
          room_id := "room-living-1", domain := device_domain_t.DOMAIN_BLINDS,
          capabilities := [device_capability_t.CAP_POSITION],
          health := HEALTH_ONLINE, is_on := true, position := 50 },
        { id := "climate-living-thermo", name := "Thermostat",
          room_id := "room-living-1", domain := device_domain_t.DOMAIN_CLIMATE,
          capabilities := [device_capability_t.CAP_TEMPERATURE_READ,
                           device_capability_t.CAP_TEMPERATURE_SET],
          health := HEALTH_ONLINE, is_on := true,
          temperature := (45 : ℚ)/2, setpoint := 22 } ],
    scenes :=
      [ { id := "scene-evening", name := "Evening", room_id := "room-living-1",
          colour := "#F5A623", icon := "evening", enabled := true, sort_order := 1 },
        { id := "scene-movie", name := "Movie", room_id := "room-living-1",
          colour := "#CC5500", icon := "movie", enabled := true, sort_order := 2 },
        { id := "scene-morning", name := "Morning", room_id := "room-living-1",
          colour := "#FFF8E7", icon := "morning", enabled := true, sort_order := 3 },
        { id := "scene-all-off", name := "All Off", room_id := "room-living-1",
          colour := "#6B7B3A", icon := "off", enabled := true, sort_order := 4 } ],
    active_scene_id := "scene-evening" }

/- ── MQTT event types (net/mqtt_client.h) ─────────────────────────── -/

/-- mqtt_state_update_t: a partial device-state delta.  Defaults mirror the
memset-to-zero performed before the parser fills the struct in. -/
structure mqtt_state_update_t where
  device_id : String := ""
  has_on : Bool := false
  is_on : Bool := false
  has_level : Bool := false
  level : Int := 0
  has_pos : Bool := false
  position : Int := 0
  has_temp : Bool := false
  temperature : ℚ := 0
  has_sp : Bool := false
  setpoint : ℚ := 0
  has_health : Bool := false
  health : Int := 0
deriving DecidableEq, Inhabited

/-- mqtt_scene_event_t: a scene-activation event. -/
structure mqtt_scene_event_t where
  scene_id : String := ""
  room_id : String := ""
deriving DecidableEq, Inhabited

/- ── Room store (data/data_store.c) ───────────────────────────────── -/

/-- The pair of C globals store_data / store_live in data_store.c. -/
structure data_store_t where
  data : room_data_t := {}
  live : Bool := false
deriving DecidableEq, Inhabited

/-- data_store_is_live from data_store.c. -/
def data_store_is_live (s : data_store_t) : Bool := s.live

/-- data_store_set_live from data_store.c. -/
def data_store_set_live (s : data_store_t) (live : Bool) : data_store_t :=
  { s with live := live }

/-- data_store_init from data_store.c: memcpy of the caller data. -/
def data_store_init (s : data_store_t) (d : room_data_t) : data_store_t :=
  { s with data := d }

/-- The C cast (uint8_t)x applied to an int: reduction modulo 256. -/
def uint8_of_int (x : Int) : Nat := (x % 256).toNat

/-- The field writes performed inside the match branch of
data_store_apply_update (data_store.c lines 35-40): each present flag
overwrites the corresponding device field, absent flags leave it alone. -/
def apply_update_fields (u : mqtt_state_update_t) (dev : device_t) : device_t :=
  let dev := if u.has_on then { dev with is_on := u.is_on } else dev
  let dev := if u.has_level then { dev with level := uint8_of_int u.level } else dev
  let dev := if u.has_pos then { dev with position := uint8_of_int u.position } else dev
  let dev := if u.has_temp then { dev with temperature := u.temperature } else dev
  let dev := if u.has_sp then { dev with setpoint := u.setpoint } else dev
  if u.has_health then { dev with health := u.health } else dev

/-- The device-scan loop of data_store_apply_update: walk the device list,
patch the first device whose id matches, then return (the C loop ends with
return on the first strcmp hit). -/
def apply_update_loop (u : mqtt_state_update_t) : List device_t → List device_t
  | [] => []
  | dev :: rest =>
      if dev.id = u.device_id then apply_update_fields u dev :: rest
      else dev :: apply_update_loop u rest

/-- data_store_apply_update from data_store.c (acting on an explicit store
value instead of the C global). -/
def data_store_apply_update (s : data_store_t) (u : mqtt_state_update_t) : data_store_t :=
  { s with data := { s.data with devices := apply_update_loop u s.data.devices } }

/-- data_store_set_active_scene from data_store.c: snprintf into a char[48]
buffer, i.e. truncation to 47 characters; NULL clears the field. -/
def data_store_set_active_scene (s : data_store_t) (scene_id : Option String) : data_store_t :=
  match scene_id with
  | some sid => { s with data := { s.data with active_scene_id := sid.take 47 } }
  | none => { s with data := { s.data with active_scene_id := "" } }

/- ── Panel config (net/panel_config.{h,c}) ────────────────────────── -/

/-- panel_config_t from panel_config.h. -/
structure panel_config_t where
  server_url : String := ""
  panel_token : String := ""
  room_id : String := ""
  mqtt_host : String := ""
  mqtt_port : Int := 0
deriving DecidableEq, Inhabited

/-- panel_config_is_valid from panel_config.c: token and room id both
non-empty (the C code tests the first byte of each buffer). -/
def panel_config_is_valid (cfg : panel_config_t) : Bool :=
  !cfg.panel_token.isEmpty && !cfg.room_id.isEmpty

/- ── Command layer (net/command.c) ────────────────────────────────── -/

/-- The payload a command would hand to rest_send_command /
rest_activate_scene.  The C code serialises these into small JSON strings;
we keep them structured since only their presence and content matter. -/
inductive cmd_params_t where
  | empty
  | level (n : Int)
  | position (n : Int)
  | setpoint (q : ℚ)
deriving DecidableEq

/-- One outgoing REST request as issued by command.c. -/
structure rest_request_t where
  target : String
  command : String
  params : cmd_params_t
deriving DecidableEq

/-- cmd_toggle from command.c.  rest_ok stands for the collaborator result
of rest_send_command; the returned list holds the requests actually issued
(empty when the command is suppressed).  The store is read-only here — the
C function has no store-mutating path at all. -/
def cmd_toggle (s : data_store_t) (rest_ok : Bool) (device_id : String)
    (current_state : Bool) : Bool × List rest_request_t :=
  if !(data_store_is_live s) then (false, [])
  else
    let _ := current_state
    (rest_ok, [{ target := device_id, command := "toggle", params := cmd_params_t.empty }])

/-- cmd_set_level from command.c. -/
def cmd_set_level (s : data_store_t) (rest_ok : Bool) (device_id : String)
    (level : Int) : Bool × List rest_request_t :=
  if !(data_store_is_live s) then (false, [])
  else (rest_ok, [{ target := device_id, command := "set_level",
                    params := cmd_params_t.level level }])

/-- cmd_set_position from command.c. -/
def cmd_set_position (s : data_store_t) (rest_ok : Bool) (device_id : String)
    (position : Int) : Bool × List rest_request_t :=
  if !(data_store_is_live s) then (false, [])
  else (rest_ok, [{ target := device_id, command := "set_position",
                    params := cmd_params_t.position position }])

/-- cmd_set_setpoint from command.c. -/
def cmd_set_setpoint (s : data_store_t) (rest_ok : Bool) (device_id : String)
    (setpoint : ℚ) : Bool × List rest_request_t :=
  if !(data_store_is_live s) then (false, [])
  else (rest_ok, [{ target := device_id, command := "set_setpoint",
                    params := cmd_params_t.setpoint setpoint }])

/-- cmd_activate_scene from command.c (the request goes to
rest_activate_scene; we record it with command name activate_scene). -/
def cmd_activate_scene (s : data_store_t) (rest_ok : Bool)
    (scene_id : String) : Bool × List rest_request_t :=
  if !(data_store_is_live s) then (false, [])
  else (rest_ok, [{ target := scene_id, command := "activate_scene",
                    params := cmd_params_t.empty }])

/- ── Bounded ring buffers (net/mqtt_client.c lines 19-85) ─────────── -/

/-- One of the two mutex-guarded ring buffers in mqtt_client.c: a fixed
array of n slots plus head (producer index) and tail (consumer index).
The state queue is RingBuf mqtt_state_update_t 64, the scene queue is
RingBuf mqtt_scene_event_t 16; both follow the identical enqueue/dequeue
code.  The mutex only serialises the index arithmetic, so the sequential
model captures every interleaving observed by the single consumer. -/
structure RingBuf (α : Type) (n : Nat) where
  buf : List α
  head : Nat
  tail : Nat
deriving DecidableEq

/-- The zero-initialised C globals: n default slots, head = tail = 0. -/
def RingBuf.empty (α : Type) [Inhabited α] (n : Nat) : RingBuf α n :=
  { buf := List.replicate n default, head := 0, tail := 0 }

/-- enqueue_state / enqueue_scene: write the new element at head, advance
head, and if head ran into tail advance tail as well (drop oldest). -/
def RingBuf.enqueue {α : Type} {n : Nat} (q : RingBuf α n) (x : α) : RingBuf α n :=
  let buf := q.buf.set q.head x
  let head := (q.head + 1) % n
  let tail := if head = q.tail then (q.tail + 1) % n else q.tail
  { buf := buf, head := head, tail := tail }

/-- dequeue_state / dequeue_scene: empty when head = tail, otherwise read
the slot at tail and advance tail. -/
def RingBuf.dequeue {α : Type} {n : Nat} [Inhabited α] (q : RingBuf α n) :
    Option (α × RingBuf α n) :=
  if q.head = q.tail then none
  else some (q.buf.getD q.tail default,
             { buf := q.buf, head := q.head, tail := (q.tail + 1) % n })

/-- Number of unread entries currently in the buffer (derived observable:
how many dequeues will succeed before the queue reports empty). -/
def RingBuf.pending {α : Type} {n : Nat} (q : RingBuf α n) : Nat :=
  (q.head + n - q.tail) % n

/-- The unread entries in dequeue order (derived observable). -/
def RingBuf.toList {α : Type} {n : Nat} [Inhabited α] (q : RingBuf α n) : List α :=
  (List.range q.pending).map (fun i => q.buf.getD ((q.tail + i) % n) default)

/-- Well-formedness of a ring buffer: the slot array has exactly n slots
and both indices are in range.  Holds for the initial state and is
preserved by enqueue and dequeue. -/
def RingBuf.WF {α : Type} {n : Nat} (q : RingBuf α n) : Prop :=
  q.buf.length = n ∧ q.head < n ∧ q.tail < n

instance {α : Type} {n : Nat} (q : RingBuf α n) : Decidable q.WF := by
  unfold RingBuf.WF; infer_instance

/-- The while (dequeue) loop body shared by both halves of
mqtt_client_drain_updates: repeatedly dequeue, feed each element to the
callback (threading the user state), and count the dequeued elements.
The C loop is unbounded; since a well-formed queue holds at most n - 1
unread entries, fuel n makes the model drain exactly as the C loop does. -/
def RingBuf.drainCb {α σ : Type} {n : Nat} [Inhabited α] (cb : α → σ → σ) :
    Nat → RingBuf α n → σ → Nat × σ × RingBuf α n
  | 0, q, u => (0, u, q)
  | fuel + 1, q, u =>
      match q.dequeue with
      | none => (0, u, q)
      | some (x, q1) =>
          let r := RingBuf.drainCb cb fuel q1 (cb x u)
          (r.1 + 1, r.2.1, r.2.2)

/-- Dequeue-until-empty, collecting the elements in FIFO order. -/
def RingBuf.drainAll {α : Type} {n : Nat} [Inhabited α] (q : RingBuf α n) :
    List α × RingBuf α n :=
  let r := q.drainCb (fun x l => l ++ [x]) n []
  (r.2.1, r.2.2)

/-- STATE_QUEUE_SIZE from mqtt_client.c. -/
def STATE_QUEUE_SIZE : Nat := 64

/-- SCENE_QUEUE_SIZE from mqtt_client.c. -/
def SCENE_QUEUE_SIZE : Nat := 16

/-- The state-update queue (state_queue / state_head / state_tail). -/
abbrev state_queue_t := RingBuf mqtt_state_update_t STATE_QUEUE_SIZE

/-- The scene-event queue (scene_queue / scene_head / scene_tail). -/
abbrev scene_queue_t := RingBuf mqtt_scene_event_t SCENE_QUEUE_SIZE

/-- enqueue_state from mqtt_client.c. -/
def enqueue_state (q : state_queue_t) (u : mqtt_state_update_t) : state_queue_t :=
  q.enqueue u

/-- dequeue_state from mqtt_client.c. -/
def dequeue_state (q : state_queue_t) : Option (mqtt_state_update_t × state_queue_t) :=
  q.dequeue

/-- enqueue_scene from mqtt_client.c. -/
def enqueue_scene (q : scene_queue_t) (e : mqtt_scene_event_t) : scene_queue_t :=
  q.enqueue e

/-- dequeue_scene from mqtt_client.c. -/
def dequeue_scene (q : scene_queue_t) : Option (mqtt_scene_event_t × scene_queue_t) :=
  q.dequeue

/-- mqtt_client_drain_updates from mqtt_client.c: drain the state queue
first (one callback per update), then the scene queue, returning the
total count.  σ is the opaque user_data threaded through the callbacks;
a NULL C callback corresponds to a constant function. -/
def mqtt_client_drain_updates {σ : Type} (state_cb : mqtt_state_update_t → σ → σ)
    (scene_cb : mqtt_scene_event_t → σ → σ) (user_data : σ)
    (sq : state_queue_t) (cq : scene_queue_t) :
    Nat × σ × state_queue_t × scene_queue_t :=
  let r1 := sq.drainCb state_cb STATE_QUEUE_SIZE user_data
  let r2 := cq.drainCb scene_cb SCENE_QUEUE_SIZE r1.2.1
  (r1.1 + r2.1, r2.2.1, r1.2.2, r2.2.2)

/- ── Topic parsing (net/mqtt_client.c lines 92-125) ───────────────── -/

/-- strstr on character lists: index of the first occurrence of needle in
hay (strstr with a non-empty needle; for an empty needle it returns 0 at
once, like strstr returning hay). -/
def strstr_idx (needle : List Char) : List Char → Option Nat
  | [] => if needle.isPrefixOf ([] : List Char) then some 0 else none
  | c :: rest =>
      if needle.isPrefixOf (c :: rest) then some 0
      else (strstr_idx needle rest).map (fun i => i + 1)

/-- The shared shape of parse_device_topic and parse_scene_topic (the two
C functions are identical up to the fixed head and suffix): require the
fixed topic head, find the first occurrence of the suffix after it, and
accept the segment in between when its length is positive and leaves room
for the NUL terminator in the size-byte destination buffer. -/
def parse_topic_id (pre sfx : List Char) (topic : String) (size : Nat) : Option String :=
  if pre.isPrefixOf topic.data then
    match strstr_idx sfx (topic.data.drop pre.length) with
    | none => none
    | some len =>
        if 0 < len ∧ len < size
        then some (String.mk ((topic.data.drop pre.length).take len))
        else none
  else none

/-- parse_device_topic from mqtt_client.c. -/
def parse_device_topic (topic : String) (size : Nat) : Option String :=
  parse_topic_id (("graylogic/core/device/").data) (("/state").data) topic size

/-- parse_scene_topic from mqtt_client.c. -/
def parse_scene_topic (topic : String) (size : Nat) : Option String :=
  parse_topic_id (("graylogic/core/scene/").data) (("/activated").data) topic size

/- ── cJSON model (external collaborator) ──────────────────────────── -/

/-- A parsed cJSON document.  Numbers carry the exact value; an object is
its field list in document order. -/
inductive JVal where
  | jnull
  | jbool (b : Bool)
  | jnum (v : ℚ)
  | jstr (s : String)
  | jarr (elems : List JVal)
  | jobj (fields : List (String × JVal))
deriving Inhabited

/-- cJSON_GetObjectItem: first field whose name matches the key
case-insensitively; NULL (none) on non-objects and missing keys. -/
def cJSON_GetObjectItem : JVal → String → Option JVal
  | JVal.jobj fields, key =>
      (fields.find? (fun f => f.1.toLower == key.toLower)).map (fun f => f.2)
  | _, _ => none

/-- cJSON_IsBool on a possibly-NULL item. -/
def cJSON_IsBool : Option JVal → Bool
  | some (JVal.jbool _) => true
  | _ => false

/-- cJSON_IsTrue on a possibly-NULL item. -/
def cJSON_IsTrue : Option JVal → Bool
  | some (JVal.jbool b) => b
  | _ => false

/-- cJSON_IsNumber on a possibly-NULL item. -/
def cJSON_IsNumber : Option JVal → Bool
  | some (JVal.jnum _) => true
  | _ => false

/-- cJSON_IsString on a possibly-NULL item. -/
def cJSON_IsString : Option JVal → Bool
  | some (JVal.jstr _) => true
  | _ => false

/-- Truncation of a rational toward zero: the (int) cast cJSON applies to
produce valueint (saturation at the int range is irrelevant here). -/
def rat_trunc (v : ℚ) : Int := if v < 0 then -((-v).floor) else v.floor

/-- The valueint field of a (possibly NULL) cJSON item. -/
def jval_int : Option JVal → Int
  | some (JVal.jnum v) => rat_trunc v
  | _ => 0

/-- The valuedouble field of a (possibly NULL) cJSON item. -/
def jval_num : Option JVal → ℚ
  | some (JVal.jnum v) => v
  | _ => 0

/-- The valuestring field of a (possibly NULL) cJSON item. -/
def jval_str : Option JVal → String
  | some (JVal.jstr s) => s
  | _ => ""

/- ── Ingress handler (net/mqtt_client.c on_message) ───────────────── -/

/-- on_message from mqtt_client.c, acting on the two queues.  payload is
the raw message body; parsed is the result of cJSON_ParseWithLength on it
(none = parse failure).  Empty payloads return immediately.  A device
topic with an unparseable payload returns without enqueueing; a scene
topic enqueues the event regardless, filling room_id only when the
payload parsed to an object with a string room_id (the struct is
memset to zero first, hence the empty-string defaults). -/
def on_message (topic : String) (payload : String) (parsed : Option JVal)
    (sq : state_queue_t) (cq : scene_queue_t) : state_queue_t × scene_queue_t :=
  if payload.isEmpty then (sq, cq)
  else
    match parse_device_topic topic 48 with
    | some device_id =>
        match parsed with
        | none => (sq, cq)
        | some json =>
            let state := (cJSON_GetObjectItem json ("state")).getD json
            let u : mqtt_state_update_t := { device_id := device_id }
            let it_on := cJSON_GetObjectItem state ("on")
            let u := if cJSON_IsBool it_on then
                       { u with has_on := true, is_on := cJSON_IsTrue it_on } else u
            let it_level := cJSON_GetObjectItem state ("level")
            let u := if cJSON_IsNumber it_level then
                       { u with has_level := true, level := jval_int it_level } else u
            let it_pos := cJSON_GetObjectItem state ("position")
            let u := if cJSON_IsNumber it_pos then
                       { u with has_pos := true, position := jval_int it_pos } else u
            let it_temp := cJSON_GetObjectItem state ("temperature")
            let u := if cJSON_IsNumber it_temp then
                       { u with has_temp := true, temperature := jval_num it_temp } else u
            let it_sp := cJSON_GetObjectItem state ("setpoint")
            let u := if cJSON_IsNumber it_sp then
                       { u with has_sp := true, setpoint := jval_num it_sp } else u
            (enqueue_state sq u, cq)
    | none =>
        match parse_scene_topic topic 48 with
        | some scene_id =>
            let room_id :=
              match parsed with
              | some json =>
                  let rid := cJSON_GetObjectItem json ("room_id")
                  if cJSON_IsString rid then (jval_str rid).take 47 else ""
              | none => ""
            (sq, enqueue_scene cq { scene_id := scene_id, room_id := room_id })
        | none => (sq, cq)

/- ── REST collaborator and boot sequence (app.c) ──────────────────── -/

/-- MAX_ROOMS from data_model.h. -/
def MAX_ROOMS : Nat := 16

/-- MAX_DEVICES_PER_ROOM from data_model.h. -/
def MAX_DEVICES_PER_ROOM : Nat := 32

/-- MAX_SCENES_PER_ROOM from data_model.h. -/
def MAX_SCENES_PER_ROOM : Nat := 16

/-- What the REST collaborator would answer during boot: the room
directory, and per-room device and scene loads (scene load also yields
the active scene id).  rest_client.c performs blocking HTTP and JSON
decoding that is out of scope here; an empty directory models both the
error and genuinely-empty cases (rest_load_rooms returns 0 on error). -/
structure rest_env_t where
  rooms : List room_t
  devices : String → List device_t
  scenes : String → List scene_t × String

/-- rest_load_rooms as seen by app.c: at most MAX_ROOMS rooms. -/
def rest_load_rooms (env : rest_env_t) : List room_t :=
  env.rooms.take MAX_ROOMS

/-- rest_load_devices as seen by app.c: at most MAX_DEVICES_PER_ROOM. -/
def rest_load_devices (env : rest_env_t) (room_id : String) : List device_t :=
  (env.devices room_id).take MAX_DEVICES_PER_ROOM

/-- rest_load_scenes as seen by app.c: at most MAX_SCENES_PER_ROOM scenes
plus the active scene id (snprintf into a char[48] field). -/
def rest_load_scenes (env : rest_env_t) (room_id : String) : List scene_t × String :=
  ((env.scenes room_id).1.take MAX_SCENES_PER_ROOM, (env.scenes room_id).2.take 47)

/-- try_live_boot from app.c: config gate, directory load with
empty-directory bailout, room resolution with first-room substitution,
then device and scene loads.  The second component collects the printf
log lines that matter to the boot contract.  mqtt_client_init success or
failure does not change the outcome, so it is not a parameter. -/
def try_live_boot (cfg : panel_config_t) (env : rest_env_t) :
    Option room_data_t × List String :=
  if !(panel_config_is_valid cfg) then (none, [])
  else
    let rooms := rest_load_rooms env
    if rooms.length = 0 then
      (none, [("[app] no rooms found — falling back to demo")])
    else
      let found := rooms.findIdx? (fun r => r.id == cfg.room_id)
      let room_idx := found.getD 0
      let logs :=
        match found with
        | some _ => ([] : List String)
        | none =>
            [("[app] room ") ++ cfg.room_id ++ (" not found in hierarchy"),
             ("[app] using first room: ") ++ (rooms.headD default).name
               ++ (" (") ++ (rooms.headD default).id ++ (")")]
      let room := rooms.getD room_idx default
      let devices := rest_load_devices env room.id
      let scenes := rest_load_scenes env room.id
      (some { room := room, devices := devices,
              scenes := scenes.1, active_scene_id := scenes.2 },
       logs ++ [("[app] live boot: ") ++ room.name])

/-- The boot decision in app_init (app.c): when the loaded config is
valid and try_live_boot succeeds, install the live data and mark the
store live; otherwise install the demo data and mark it non-live
(FALLBACK).  Theme and widget construction are out of scope. -/
def app_init (cfg : panel_config_t) (env : rest_env_t) : data_store_t :=
  if panel_config_is_valid cfg then
    match (try_live_boot cfg env).1 with
    | some d => { data := d, live := true }
    | none => { data := demo_data_create, live := false }
  else { data := demo_data_create, live := false }

/-- Functional model of one enqueue as seen through toList: append the
new element, dropping the oldest entry when the buffer already holds its
maximum of cap unread entries (cap = n - 1 for a size-n ring). -/
def pushCap {α : Type} (cap : Nat) (l : List α) (x : α) : List α :=
  if l.length < cap then l ++ [x] else l.drop 1 ++ [x]

/-- on_state_update from app.c, store part: apply the update to the store
(the widget refresh has no store effect and is out of scope). -/
def on_state_update (u : mqtt_state_update_t) (s : data_store_t) : data_store_t :=
  data_store_apply_update s u

/-- on_scene_event from app.c, store part: set the active scene. -/
def on_scene_event (e : mqtt_scene_event_t) (s : data_store_t) : data_store_t :=
  data_store_set_active_scene s (some e.scene_id)

/-- A one-device store for the end-to-end drain scenario. -/
def scenario_store : data_store_t :=
  { data := { room := {}, devices := [{ id := "d1" }], scenes := [],
              active_scene_id := "" },
    live := true }

/-- State queue holding exactly one pending update (device d1, level 50). -/
def scenario_sq : state_queue_t :=
  enqueue_state (RingBuf.empty mqtt_state_update_t STATE_QUEUE_SIZE)
    { device_id := "d1", has_level := true, level := 50 }

/-- Scene queue holding exactly one pending event (scene s2). -/
def scenario_cq : scene_queue_t :=
  enqueue_scene (RingBuf.empty mqtt_scene_event_t SCENE_QUEUE_SIZE)
    { scene_id := "s2" }

/- ── Theorems ─────────────────────────────────────────────────────── -/

/-- Splitting a mod by n of a value below 2n. -/
theorem two_n_mod (a n : Nat) (h : a < 2 * n) :
    a % n = if a < n then a else a - n := by
  split_ifs with h1
  · exact Nat.mod_eq_of_lt h1
  · have h2 : n ≤ a := Nat.le_of_not_lt h1
    rw [Nat.mod_eq_sub_mod h2]
    exact Nat.mod_eq_of_lt (by omega)

/-- getD after set at the same (in-range) index reads the new value. -/
theorem getD_set_self {α : Type} :
    ∀ (l : List α) (i : Nat) (x d : α), i < l.length → (l.set i x).getD i d = x
  | [], i, x, d, h => by simp at h
  | a :: t, 0, x, d, _ => rfl
  | a :: t, i + 1, x, d, h => by
      have := getD_set_self t i x d (by simpa using Nat.lt_of_succ_lt_succ h)
      simpa [List.getD] using this

/-- getD after set at a different index reads the old value. -/
theorem getD_set_ne {α : Type} :
    ∀ (l : List α) (i j : Nat) (x d : α), i ≠ j → (l.set i x).getD j d = l.getD j d
  | [], i, j, x, d, _ => by simp
  | a :: t, 0, 0, x, d, h => absurd rfl h
  | a :: t, 0, j + 1, x, d, _ => by simp [List.getD]
  | a :: t, i + 1, 0, x, d, _ => by simp [List.getD]
  | a :: t, i + 1, j + 1, x, d, h => by
      have := getD_set_ne t i j x d (by omega)
      simpa [List.getD] using this

/-- A well-formed ring never reports more than n - 1 unread entries. -/
theorem RingBuf.pending_lt {α : Type} {n : Nat} (q : RingBuf α n)
    (hh : q.head < n) : q.pending < n :=
  Nat.mod_lt _ (by omega)

/-- Pending count vanishes exactly when the indices coincide. -/
theorem RingBuf.pending_eq_zero_iff {α : Type} {n : Nat} (q : RingBuf α n)
    (hh : q.head < n) (ht : q.tail < n) : q.pending = 0 ↔ q.head = q.tail := by
  unfold RingBuf.pending
  rw [two_n_mod _ _ (by omega)]
  split_ifs <;> omega

/-- Advancing tail by the pending count lands on head. -/
theorem RingBuf.tail_add_pending {α : Type} {n : Nat} (q : RingBuf α n)
    (hh : q.head < n) (ht : q.tail < n) : (q.tail + q.pending) % n = q.head := by
  unfold RingBuf.pending
  rw [two_n_mod (q.head + n - q.tail) _ (by omega)]
  split_ifs with h1
  · rw [two_n_mod _ _ (by omega)]
    split_ifs <;> omega
  · rw [two_n_mod _ _ (by omega)]
    split_ifs <;> omega

/-- Slots holding unread entries are distinct from the write position. -/
theorem RingBuf.idx_ne_head {α : Type} {n : Nat} (q : RingBuf α n)
    (hh : q.head < n) (ht : q.tail < n) {i : Nat} (hi : i < q.pending) :
    (q.tail + i) % n ≠ q.head := by
  unfold RingBuf.pending at hi
  rw [two_n_mod _ _ (by omega)] at hi
  split_ifs at hi with h1
  · rw [two_n_mod _ _ (by omega)]
    split_ifs <;> omega
  · rw [two_n_mod _ _ (by omega)]
    split_ifs <;> omega

/-- The enqueue wrap test head + 1 = tail detects a buffer holding its
maximum of n - 1 unread entries. -/
theorem RingBuf.full_iff {α : Type} {n : Nat} (q : RingBuf α n)
    (hh : q.head < n) (ht : q.tail < n) :
    (q.head + 1) % n = q.tail ↔ q.pending = n - 1 := by
  unfold RingBuf.pending
  rw [two_n_mod (q.head + 1) _ (by omega), two_n_mod (q.head + n - q.tail) _ (by omega)]
  split_ifs <;> omega

/-- Pending count after a successful dequeue. -/
theorem RingBuf.pending_dequeue {α : Type} {n : Nat} (q : RingBuf α n)
    (hh : q.head < n) (ht : q.tail < n) (hne : q.head ≠ q.tail) :
    (q.head + n - (q.tail + 1) % n) % n = q.pending - 1 := by
  unfold RingBuf.pending
  by_cases hc : q.tail + 1 < n
  · rw [Nat.mod_eq_of_lt hc,
        two_n_mod (q.head + n - (q.tail + 1)) _ (by omega),
        two_n_mod (q.head + n - q.tail) _ (by omega)]
    split_ifs <;> omega
  · have h1 : q.tail + 1 = n := by omega
    rw [h1, Nat.mod_self,
        two_n_mod (q.head + n - 0) _ (by omega),
        two_n_mod (q.head + n - q.tail) _ (by omega)]
    split_ifs <;> omega

/-- Pending count after an enqueue that did not hit the wrap test. -/
theorem RingBuf.pending_enqueue_not_full {α : Type} {n : Nat} (q : RingBuf α n)
    (hh : q.head < n) (ht : q.tail < n) (hnf : (q.head + 1) % n ≠ q.tail) :
    ((q.head + 1) % n + n - q.tail) % n = q.pending + 1 := by
  unfold RingBuf.pending
  by_cases hc : q.head + 1 < n
  · rw [Nat.mod_eq_of_lt hc] at hnf ⊢
    rw [two_n_mod (q.head + 1 + n - q.tail) _ (by omega),
        two_n_mod (q.head + n - q.tail) _ (by omega)]
    split_ifs <;> omega
  · have h1 : q.head + 1 = n := by omega
    rw [h1, Nat.mod_self] at hnf ⊢
    rw [two_n_mod (0 + n - q.tail) _ (by omega),
        two_n_mod (q.head + n - q.tail) _ (by omega)]
    split_ifs <;> omega

/-- Pending count after an enqueue that hit the wrap test (the buffer was
full; head became the old tail, tail advanced): still n - 1 entries. -/
theorem RingBuf.pending_enqueue_full {α : Type} {n : Nat} (q : RingBuf α n)
    (ht : q.tail < n) :
    (q.tail + n - (q.tail + 1) % n) % n = n - 1 := by
  by_cases hc : q.tail + 1 < n
  · rw [Nat.mod_eq_of_lt hc, two_n_mod (q.tail + n - (q.tail + 1)) _ (by omega)]
    split_ifs <;> omega
  · have h1 : q.tail + 1 = n := by omega
    rw [h1, Nat.mod_self, two_n_mod (q.tail + n - 0) _ (by omega)]
    split_ifs <;> omega

/-- toList reports exactly pending entries. -/
theorem RingBuf.toList_length {α : Type} {n : Nat} [Inhabited α] (q : RingBuf α n) :
    q.toList.length = q.pending := by
  simp [RingBuf.toList]

/-- dequeue on a non-empty well-formed buffer returns the slot at tail and
advances tail. -/
theorem RingBuf.dequeue_char {α : Type} {n : Nat} [Inhabited α] (q : RingBuf α n)
    (hne : q.head ≠ q.tail) :
    q.dequeue = some (q.buf.getD q.tail default,
      ({ q with tail := (q.tail + 1) % n } : RingBuf α n)) := by
  simp [RingBuf.dequeue, hne]

/-- A successful dequeue splits toList as head element plus the rest. -/
theorem RingBuf.toList_dequeue {α : Type} {n : Nat} [Inhabited α] (q : RingBuf α n)
    (hh : q.head < n) (ht : q.tail < n) (hne : q.head ≠ q.tail) :
    q.toList = q.buf.getD q.tail default ::
      RingBuf.toList ({ q with tail := (q.tail + 1) % n } : RingBuf α n) := by
  have hp0 : q.pending ≠ 0 := fun h => hne ((q.pending_eq_zero_iff hh ht).mp h)
  have hp1 : RingBuf.pending ({ q with tail := (q.tail + 1) % n } : RingBuf α n) = q.pending - 1 :=
    q.pending_dequeue hh ht hne
  obtain ⟨p, hp⟩ : ∃ p, q.pending = p + 1 := ⟨q.pending - 1, by omega⟩
  unfold RingBuf.toList
  rw [hp1, hp]
  simp only [Nat.add_sub_cancel, List.range_succ_eq_map, List.map_cons, List.map_map]
  refine congrArg₂ List.cons ?_ ?_
  · rw [Nat.add_zero, Nat.mod_eq_of_lt ht]
  · refine List.map_congr_left (fun i _ => ?_)
    simp only [Function.comp]
    rw [Nat.mod_add_mod]
    refine congrArg₂ (fun a b => List.getD q.buf (a % n) b) ?_ rfl
    omega

/-- The drain loop on a well-formed buffer with enough fuel dequeues
exactly the pending entries, feeds them to the callback in FIFO order,
and leaves the buffer empty (tail caught up with head). -/
theorem RingBuf.drainCb_spec {α σ : Type} {n : Nat} [Inhabited α] (cb : α → σ → σ) :
    ∀ (fuel : Nat) (q : RingBuf α n) (u : σ), q.head < n → q.tail < n →
      q.pending ≤ fuel →
      q.drainCb cb fuel u =
        (q.pending, q.toList.foldl (fun s x => cb x s) u,
         ({ q with tail := q.head } : RingBuf α n))
  | 0, q, u, hh, ht, hf => by
      have hp : q.pending = 0 := by omega
      have hht : q.head = q.tail := (q.pending_eq_zero_iff hh ht).mp hp
      have hl : q.toList = [] := by
        have := q.toList_length (α := α)
        rw [hp] at this
        exact List.eq_nil_of_length_eq_zero this
      simp only [RingBuf.drainCb, hp, hl, List.foldl_nil]
      exact (congrArg (fun t => ((0 : Nat), u, ({ q with tail := t } : RingBuf α n)))
        hht).symm
  | fuel + 1, q, u, hh, ht, hf => by
      by_cases hne : q.head = q.tail
      · have hp : q.pending = 0 := (q.pending_eq_zero_iff hh ht).mpr hne
        have hl : q.toList = [] := by
          have := q.toList_length (α := α)
          rw [hp] at this
          exact List.eq_nil_of_length_eq_zero this
        have hd : q.dequeue = none := by simp [RingBuf.dequeue, hne]
        simp only [RingBuf.drainCb, hd, hp, hl, List.foldl_nil]
        exact (congrArg (fun t => ((0 : Nat), u, ({ q with tail := t } : RingBuf α n)))
          hne).symm
      · have hp1 : RingBuf.pending ({ q with tail := (q.tail + 1) % n } : RingBuf α n)
            = q.pending - 1 := q.pending_dequeue hh ht hne
        have hp0 : q.pending ≠ 0 := fun h => hne ((q.pending_eq_zero_iff hh ht).mp h)
        have ih := RingBuf.drainCb_spec cb fuel
          ({ q with tail := (q.tail + 1) % n } : RingBuf α n) (cb (q.buf.getD q.tail default) u)
          hh (Nat.mod_lt _ (by omega)) (by rw [hp1]; omega)
        simp only [RingBuf.drainCb, q.dequeue_char hne, ih, hp1,
          q.toList_dequeue hh ht hne, List.foldl_cons]
        refine congrArg₂ Prod.mk (by omega) rfl

/-- Index form of toList. -/
theorem RingBuf.toList_getElem {α : Type} {n : Nat} [Inhabited α] (q : RingBuf α n)
    (i : Nat) (h : i < q.toList.length) :
    q.toList[i] = q.buf.getD ((q.tail + i) % n) default := by
  simp [RingBuf.toList]

/-- Observed through toList, enqueue is exactly pushCap (n - 1): append,
dropping the oldest entry when n - 1 entries are already unread. -/
theorem RingBuf.enqueue_toList {α : Type} {n : Nat} [Inhabited α] (q : RingBuf α n) (x : α)
    (hb : q.buf.length = n) (hh : q.head < n) (ht : q.tail < n) (hn : 1 < n) :
    (q.enqueue x).toList = pushCap (n - 1) q.toList x := by
  have hlen : q.toList.length = q.pending := q.toList_length
  have hplt : q.pending < n := q.pending_lt hh
  by_cases hf : (q.head + 1) % n = q.tail
  · -- wrap hit: the buffer held n - 1 entries; oldest is dropped
    have hp : q.pending = n - 1 := (q.full_iff hh ht).mp hf
    have hq1 : q.enqueue x = ({ buf := q.buf.set q.head x,
                                head := q.tail,
                                tail := (q.tail + 1) % n } : RingBuf α n) := by
      show ({ buf := q.buf.set q.head x,
              head := (q.head + 1) % n,
              tail := if (q.head + 1) % n = q.tail then (q.tail + 1) % n
                      else q.tail } : RingBuf α n) = _
      rw [if_pos hf, hf]
    have hp1 : RingBuf.pending ({ buf := q.buf.set q.head x,
                                  head := q.tail,
                                  tail := (q.tail + 1) % n } : RingBuf α n) = n - 1 :=
      q.pending_enqueue_full ht
    have hL1 : (q.enqueue x).toList.length = n - 1 := by
      rw [hq1, RingBuf.toList_length, hp1]
    have hcond : ¬ q.toList.length < n - 1 := by omega
    unfold pushCap
    rw [if_neg hcond]
    apply List.ext_getElem
    · simp only [hL1, List.length_append, List.length_drop, List.length_singleton]
      omega
    · intro i h1 h2
      simp only [hq1] at h1 ⊢
      rw [RingBuf.toList_getElem _ i h1]
      simp only [Nat.mod_add_mod]
      by_cases hi : i < n - 2
      · have h3 : i < (q.toList.drop 1).length := by
          simp only [List.length_drop]
          omega
        rw [List.getElem_append_left h3]
        simp only [List.getElem_drop]
        rw [RingBuf.toList_getElem _ _ (by omega)]
        have hne : q.head ≠ (q.tail + 1 + i) % n := by
          have := q.idx_ne_head hh ht (i := 1 + i) (by omega)
          rw [← Nat.add_assoc] at this
          exact this.symm
        rw [getD_set_ne _ _ _ _ _ hne]
        refine congrArg₂ (fun a b => List.getD q.buf (a % n) b) (by omega) rfl
      · have hieq : i = n - 2 := by
          rw [RingBuf.toList_length, hp1] at h1
          omega
        have h3 : (q.toList.drop 1).length ≤ i := by
          simp only [List.length_drop]
          omega
        rw [List.getElem_append_right h3]
        simp only [List.getElem_singleton]
        have hidx : (q.tail + 1 + i) % n = q.head := by
          have := q.tail_add_pending hh ht
          rw [hp] at this
          rw [← this]
          refine congrArg (fun a => a % n) ?_
          omega
        rw [hidx]
        exact getD_set_self _ _ _ _ (by omega)
  · -- no wrap: plain append
    have hpne : q.pending ≠ n - 1 := fun h => hf ((q.full_iff hh ht).mpr h)
    have hq1 : q.enqueue x = ({ buf := q.buf.set q.head x,
                                head := (q.head + 1) % n,
                                tail := q.tail } : RingBuf α n) := by
      show ({ buf := q.buf.set q.head x,
              head := (q.head + 1) % n,
              tail := if (q.head + 1) % n = q.tail then (q.tail + 1) % n
                      else q.tail } : RingBuf α n) = _
      rw [if_neg hf]
    have hp1 : RingBuf.pending ({ buf := q.buf.set q.head x,
                                  head := (q.head + 1) % n,
                                  tail := q.tail } : RingBuf α n) = q.pending + 1 :=
      q.pending_enqueue_not_full hh ht hf
    have hL1 : (q.enqueue x).toList.length = q.pending + 1 := by
      rw [hq1, RingBuf.toList_length, hp1]
    have hcond : q.toList.length < n - 1 := by omega
    unfold pushCap
    rw [if_pos hcond]
    apply List.ext_getElem
    · simp only [hL1, List.length_append, List.length_singleton]
      omega
    · intro i h1 h2
      simp only [hq1] at h1 ⊢
      rw [RingBuf.toList_getElem _ i h1]
      by_cases hi : i < q.pending
      · have h3 : i < q.toList.length := by omega
        rw [List.getElem_append_left h3]
        rw [RingBuf.toList_getElem _ _ h3]
        have hne : q.head ≠ (q.tail + i) % n := (q.idx_ne_head hh ht hi).symm
        exact getD_set_ne _ _ _ _ _ hne
      · have hieq : i = q.pending := by
          rw [RingBuf.toList_length, hp1] at h1
          omega
        have h3 : q.toList.length ≤ i := by omega
        rw [List.getElem_append_right h3]
        simp only [List.getElem_singleton]
        have hidx : (q.tail + i) % n = q.head := by
          rw [hieq]
          exact q.tail_add_pending hh ht
        rw [hidx]
        exact getD_set_self _ _ _ _ (by omega)

/-- The zero-initialised buffer is well-formed. -/
theorem RingBuf.WF_empty {α : Type} [Inhabited α] {n : Nat} (hn : 0 < n) :
    (RingBuf.empty α n).WF := by
  refine ⟨?_, hn, hn⟩
  simp [RingBuf.empty]

/-- The zero-initialised buffer reports no unread entries. -/
theorem RingBuf.toList_empty {α : Type} [Inhabited α] {n : Nat} :
    (RingBuf.empty α n).toList = [] := by
  have hp : (RingBuf.empty α n).pending = 0 := by
    simp [RingBuf.empty, RingBuf.pending]
  simp [RingBuf.toList, hp]

/-- enqueue preserves well-formedness. -/
theorem RingBuf.WF_enqueue {α : Type} {n : Nat} (q : RingBuf α n) (x : α)
    (hq : q.WF) : (q.enqueue x).WF := by
  obtain ⟨hb, hh, ht⟩ := hq
  refine ⟨?_, ?_, ?_⟩
  · simp [RingBuf.enqueue, hb]
  · exact Nat.mod_lt _ (by omega)
  · show (if (q.head + 1) % n = q.tail then (q.tail + 1) % n else q.tail) < n
    split_ifs
    · exact Nat.mod_lt _ (by omega)
    · exact ht

/-- Folding enqueues over a list is pushCap-folding over toList. -/
theorem RingBuf.foldl_enqueue_toList {α : Type} {n : Nat} [Inhabited α] (hn : 1 < n) :
    ∀ (xs : List α) (q : RingBuf α n), q.WF →
      (xs.foldl RingBuf.enqueue q).toList = xs.foldl (pushCap (n - 1)) q.toList ∧
      (xs.foldl RingBuf.enqueue q).WF
  | [], q, hq => ⟨rfl, hq⟩
  | x :: rest, q, hq => by
      obtain ⟨hb, hh, ht⟩ := hq
      have h1 := q.enqueue_toList x hb hh ht hn
      have h2 := q.WF_enqueue x ⟨hb, hh, ht⟩
      have ih := RingBuf.foldl_enqueue_toList hn rest (q.enqueue x) h2
      simp only [List.foldl_cons, ih.1, h1]
      exact ⟨trivial, ih.2⟩

/-- Folding pushCap keeps only the cap most recent elements, in order. -/
theorem foldl_pushCap {α : Type} (cap : Nat) (hc : 0 < cap) :
    ∀ (xs : List α) (acc : List α), acc.length ≤ cap →
      xs.foldl (pushCap cap) acc = (acc ++ xs).drop (acc.length + xs.length - cap) ∧
      (xs.foldl (pushCap cap) acc).length ≤ cap
  | [], acc, ha => by
      refine ⟨?_, ha⟩
      simp only [List.foldl_nil, List.length_nil, List.append_nil]
      rw [Nat.add_zero, Nat.sub_eq_zero_of_le ha, List.drop_zero]
  | x :: rest, acc, ha => by
      simp only [List.foldl_cons]
      by_cases hl : acc.length < cap
      · have hstep : pushCap cap acc x = acc ++ [x] := by
          unfold pushCap
          rw [if_pos hl]
        have ih := foldl_pushCap cap hc rest (acc ++ [x])
          (by simp only [List.length_append, List.length_singleton]; omega)
        rw [hstep]
        refine ⟨?_, ih.2⟩
        rw [ih.1, List.append_assoc, List.singleton_append]
        refine congrArg₂ List.drop ?_ rfl
        have l1 : (acc ++ [x]).length = acc.length + 1 := by simp
        have l2 : (x :: rest).length = rest.length + 1 := by simp
        omega
      · have hleq : acc.length = cap := by omega
        have hstep : pushCap cap acc x = acc.drop 1 ++ [x] := by
          unfold pushCap
          rw [if_neg hl]
        have ih := foldl_pushCap cap hc rest (acc.drop 1 ++ [x])
          (by simp only [List.length_append, List.length_drop,
                List.length_singleton]; omega)
        rw [hstep]
        refine ⟨?_, ih.2⟩
        rw [ih.1]
        have hd1 : acc.drop 1 ++ [x] ++ rest = (acc ++ x :: rest).drop 1 := by
          rw [List.drop_append_of_le_length (by omega), List.append_assoc,
            List.singleton_append]
        rw [hd1, List.drop_drop]
        refine congrArg₂ List.drop ?_ rfl
        have l1 : (acc.drop 1 ++ [x]).length = acc.length - 1 + 1 := by simp
        have l2 : (x :: rest).length = rest.length + 1 := by simp
        omega

/-- Folding FIFO collection is appending. -/
theorem foldl_append_singleton {α : Type} :
    ∀ (xs acc : List α), xs.foldl (fun l x => l ++ [x]) acc = acc ++ xs
  | [], acc => by simp
  | x :: rest, acc => by
      simp only [List.foldl_cons, foldl_append_singleton rest]
      simp

/-- The update scan leaves a list without a matching id untouched. -/
theorem apply_update_loop_no_match (u : mqtt_state_update_t) :
    ∀ l : List device_t, (∀ d ∈ l, d.id ≠ u.device_id) → apply_update_loop u l = l
  | [], _ => rfl
  | d :: rest, h => by
      have hd : d.id ≠ u.device_id := h d (List.mem_cons_self d rest)
      simp only [apply_update_loop, if_neg hd]
      rw [apply_update_loop_no_match u rest (fun x hx => h x (List.mem_cons_of_mem d hx))]

/-- The update scan patches exactly the first matching device. -/
theorem apply_update_loop_first_match (u : mqtt_state_update_t) :
    ∀ (l : List device_t) (i : Nat), i < l.length →
      (l.getD i default).id = u.device_id →
      (∀ j, j < i → (l.getD j default).id ≠ u.device_id) →
      apply_update_loop u l = l.set i (apply_update_fields u (l.getD i default))
  | [], i, hi, _, _ => by simp at hi
  | d :: rest, 0, _, hmatch, _ => by
      have hd : d.id = u.device_id := by simpa [List.getD] using hmatch
      simp only [apply_update_loop, if_pos hd, List.set]
      simp [List.getD]
  | d :: rest, i + 1, hi, hmatch, hprev => by
      have hd : d.id ≠ u.device_id := by
        have := hprev 0 (Nat.succ_pos i)
        simpa [List.getD] using this
      simp only [apply_update_loop, if_neg hd]
      have ih := apply_update_loop_first_match u rest i
        (by simpa using Nat.lt_of_succ_lt_succ hi)
        (by simpa [List.getD] using hmatch)
        (fun j hj => by
          have := hprev (j + 1) (Nat.succ_lt_succ hj)
          simpa [List.getD] using this)
      rw [ih]
      simp [List.getD, List.set]

/-- Field-wise behaviour of the present-flag writes: each present field
takes the update value, each absent field keeps the device value, and the
identity/static fields are never written. -/
theorem apply_update_fields_spec (u : mqtt_state_update_t) (dev : device_t) :
    (apply_update_fields u dev).id = dev.id ∧
    (apply_update_fields u dev).name = dev.name ∧
    (apply_update_fields u dev).room_id = dev.room_id ∧
    (apply_update_fields u dev).domain = dev.domain ∧
    (apply_update_fields u dev).capabilities = dev.capabilities ∧
    (apply_update_fields u dev).tilt = dev.tilt ∧
    (apply_update_fields u dev).is_on = (if u.has_on then u.is_on else dev.is_on) ∧
    (apply_update_fields u dev).level =
      (if u.has_level then uint8_of_int u.level else dev.level) ∧
    (apply_update_fields u dev).position =
      (if u.has_pos then uint8_of_int u.position else dev.position) ∧
    (apply_update_fields u dev).temperature =
      (if u.has_temp then u.temperature else dev.temperature) ∧
    (apply_update_fields u dev).setpoint =
      (if u.has_sp then u.setpoint else dev.setpoint) ∧
    (apply_update_fields u dev).health =
      (if u.has_health then u.health else dev.health) := by
  unfold apply_update_fields
  split_ifs <;>
    exact ⟨rfl, rfl, rfl, rfl, rfl, rfl, rfl, rfl, rfl, rfl, rfl, rfl⟩

/-- C1: data_store_apply_update leaves a store without a matching device
id entirely unchanged; when some device matches, it rewrites exactly the
first matching device (all other devices, the room, the scenes, the
active-scene id and the live flag are untouched), and on that device each
field marked present takes the update value (level and position through
the uint8 cast) while every absent field keeps its pre-update value. -/
theorem claim_C1_apply_update (s : data_store_t) (u : mqtt_state_update_t) :
    ((∀ d ∈ s.data.devices, d.id ≠ u.device_id) →
        data_store_apply_update s u = s)
    ∧ (∀ i, i < s.data.devices.length →
        (s.data.devices.getD i default).id = u.device_id →
        (∀ j, j < i → (s.data.devices.getD j default).id ≠ u.device_id) →
        data_store_apply_update s u =
          { s with data := { s.data with devices := s.data.devices.set i (apply_update_fields u (s.data.devices.getD i default)) } })
    ∧ (∀ dev : device_t,
        (apply_update_fields u dev).id = dev.id ∧
        (apply_update_fields u dev).name = dev.name ∧
        (apply_update_fields u dev).room_id = dev.room_id ∧
        (apply_update_fields u dev).domain = dev.domain ∧
        (apply_update_fields u dev).capabilities = dev.capabilities ∧
        (apply_update_fields u dev).tilt = dev.tilt ∧
        (apply_update_fields u dev).is_on = (if u.has_on then u.is_on else dev.is_on) ∧
        (apply_update_fields u dev).level =
          (if u.has_level then uint8_of_int u.level else dev.level) ∧
        (apply_update_fields u dev).position =
          (if u.has_pos then uint8_of_int u.position else dev.position) ∧
        (apply_update_fields u dev).temperature =
          (if u.has_temp then u.temperature else dev.temperature) ∧
        (apply_update_fields u dev).setpoint =
          (if u.has_sp then u.setpoint else dev.setpoint) ∧
        (apply_update_fields u dev).health =
          (if u.has_health then u.health else dev.health)) := by
  refine ⟨?_, ?_, fun dev => apply_update_fields_spec u dev⟩
  · intro h
    unfold data_store_apply_update
    rw [apply_update_loop_no_match u s.data.devices h]
  · intro i hi hmatch hprev
    unfold data_store_apply_update
    rw [apply_update_loop_first_match u s.data.devices i hi hmatch hprev]

/-- C1 witness: in the demo store, an update for light-living-floor with
only level present (value 300) rewrites exactly device 1, whose level
becomes 300 mod 256 = 44; a matching no-op id leaves the store unchanged. -/
theorem claim_C1_apply_update_witness :
    (1 < demo_data_create.devices.length ∧
      data_store_apply_update { data := demo_data_create, live := false }
          { device_id := "light-living-floor", has_level := true, level := 300 }
        = { data := { demo_data_create with devices := demo_data_create.devices.set 1 (apply_update_fields { device_id := "light-living-floor", has_level := true, level := 300 } (demo_data_create.devices.getD 1 default)) }, live := false } : Prop)
    ∧ data_store_apply_update { data := demo_data_create, live := false }
        { device_id := "no-such-device" }
      = { data := demo_data_create, live := false } := by
  refine ⟨⟨by decide, ?_⟩, ?_⟩
  · exact (claim_C1_apply_update
      { data := demo_data_create, live := false }
      { device_id := "light-living-floor", has_level := true, level := 300 }).2.1
      1 (by decide) (by decide) (by decide)
  · exact (claim_C1_apply_update
      { data := demo_data_create, live := false }
      { device_id := "no-such-device" }).1 (by decide)

/-- Enqueueing any stream into a fresh ring and then dequeueing until
empty returns exactly the last n - 1 elements (or all of them when fewer),
in their original relative order, and leaves the queue empty. -/
theorem ringbuf_enqueueAll_drainAll {α : Type} [Inhabited α] {n : Nat} (hn : 1 < n)
    (xs : List α) :
    (xs.foldl RingBuf.enqueue (RingBuf.empty α n)).drainAll.1
        = xs.drop (xs.length - (n - 1))
    ∧ (xs.foldl RingBuf.enqueue (RingBuf.empty α n)).drainAll.2.pending = 0 := by
  have h0 : (RingBuf.empty α n).WF := RingBuf.WF_empty (by omega)
  obtain ⟨hTL, hWF⟩ := RingBuf.foldl_enqueue_toList hn xs (RingBuf.empty α n) h0
  obtain ⟨hb, hh, ht⟩ := hWF
  have hpc := foldl_pushCap (n - 1) (by omega) xs ([] : List α) (by simp)
  rw [RingBuf.toList_empty] at hTL
  have hTL2 : (xs.foldl RingBuf.enqueue (RingBuf.empty α n)).toList
      = xs.drop (xs.length - (n - 1)) := by
    rw [hTL, hpc.1]
    simp
  have hds := RingBuf.drainCb_spec (fun x l => l ++ [x]) n
    (xs.foldl RingBuf.enqueue (RingBuf.empty α n)) ([] : List α) hh ht
    (Nat.le_of_lt ((xs.foldl RingBuf.enqueue (RingBuf.empty α n)).pending_lt hh))
  constructor
  · show ((xs.foldl RingBuf.enqueue (RingBuf.empty α n)).drainCb
      (fun x l => l ++ [x]) n []).2.1 = _
    rw [hds]
    show (xs.foldl RingBuf.enqueue (RingBuf.empty α n)).toList.foldl
      (fun s x => s ++ [x]) [] = _
    rw [foldl_append_singleton, List.nil_append, hTL2]
  · show RingBuf.pending ((xs.foldl RingBuf.enqueue (RingBuf.empty α n)).drainCb
      (fun x l => l ++ [x]) n []).2.2 = 0
    rw [hds]
    show ((xs.foldl RingBuf.enqueue (RingBuf.empty α n)).head + n -
      (xs.foldl RingBuf.enqueue (RingBuf.empty α n)).head) % n = 0
    have he : (xs.foldl RingBuf.enqueue (RingBuf.empty α n)).head + n -
        (xs.foldl RingBuf.enqueue (RingBuf.empty α n)).head = n := by omega
    rw [he, Nat.mod_self]

/-- C2 counterexample: the rings use head = tail as the empty condition,
so a size-16 scene queue retains at most 15 unread events.  Enqueueing 17
scene events into the empty scene queue and dequeueing until empty yields
15 events, not the 16 the claim asserts (the state queue fails the same
way with 65 enqueues yielding 63). -/
theorem claim_C2_counterexample :
    (((List.range 17).map
        (fun i => ({ scene_id := Nat.repr i } : mqtt_scene_event_t))).foldl
        RingBuf.enqueue (RingBuf.empty mqtt_scene_event_t SCENE_QUEUE_SIZE)).drainAll.1.length
      = 15
    ∧ ¬ ((((List.range 17).map
        (fun i => ({ scene_id := Nat.repr i } : mqtt_scene_event_t))).foldl
        RingBuf.enqueue (RingBuf.empty mqtt_scene_event_t SCENE_QUEUE_SIZE)).drainAll.1.length
      = 16) := by
  constructor
  · decide
  · decide

/-- C2 (amended): for each bounded event queue (size 64 for state updates,
size 16 for scene events), starting from the empty queue, enqueueing any
sequence of items and dequeueing until empty yields exactly the
min(length, N - 1) most recently enqueued items in their original relative
order — the head = tail empty test caps retention at N - 1, so N + 1
enqueues retain N - 1 items, not N; enqueue always succeeds and on a full
queue silently drops the oldest unread entry. -/
theorem claim_C2_queue_retention :
    (∀ xs : List mqtt_state_update_t,
      (xs.foldl RingBuf.enqueue (RingBuf.empty mqtt_state_update_t STATE_QUEUE_SIZE)).drainAll.1
          = xs.drop (xs.length - 63)
      ∧ (xs.foldl RingBuf.enqueue
          (RingBuf.empty mqtt_state_update_t STATE_QUEUE_SIZE)).drainAll.2.pending = 0)
    ∧ (∀ ys : List mqtt_scene_event_t,
      (ys.foldl RingBuf.enqueue (RingBuf.empty mqtt_scene_event_t SCENE_QUEUE_SIZE)).drainAll.1
          = ys.drop (ys.length - 15)
      ∧ (ys.foldl RingBuf.enqueue
          (RingBuf.empty mqtt_scene_event_t SCENE_QUEUE_SIZE)).drainAll.2.pending = 0) :=
  ⟨fun xs => ringbuf_enqueueAll_drainAll (by unfold STATE_QUEUE_SIZE; norm_num) xs,
   fun ys => ringbuf_enqueueAll_drainAll (by unfold SCENE_QUEUE_SIZE; norm_num) ys⟩

/-- A ring whose tail has been advanced to head reports nothing pending. -/
theorem RingBuf.pending_drained {α : Type} {n : Nat} (q : RingBuf α n) :
    RingBuf.pending ({ q with tail := q.head } : RingBuf α n) = 0 := by
  show (q.head + n - q.head) % n = 0
  have he : q.head + n - q.head = n := by omega
  rw [he, Nat.mod_self]

/-- C3: a single call of mqtt_client_drain_updates dequeues every pending
state update and every pending scene event, invokes the matching callback
once per dequeued event, returns the total number of events drained, and
leaves both queues empty; the function is total (no error path). -/
theorem claim_C3_drain_all {σ : Type} (state_cb : mqtt_state_update_t → σ → σ)
    (scene_cb : mqtt_scene_event_t → σ → σ) (user_data : σ)
    (sq : state_queue_t) (cq : scene_queue_t) (hsq : sq.WF) (hcq : cq.WF) :
    (mqtt_client_drain_updates state_cb scene_cb user_data sq cq).1
        = sq.pending + cq.pending
    ∧ (mqtt_client_drain_updates state_cb scene_cb user_data sq cq).2.2.1.pending = 0
    ∧ (mqtt_client_drain_updates state_cb scene_cb user_data sq cq).2.2.2.pending = 0 := by
  obtain ⟨hb1, hh1, ht1⟩ := hsq
  obtain ⟨hb2, hh2, ht2⟩ := hcq
  have h1 := RingBuf.drainCb_spec state_cb STATE_QUEUE_SIZE sq user_data hh1 ht1
    (Nat.le_of_lt (sq.pending_lt hh1))
  have h2 := RingBuf.drainCb_spec scene_cb SCENE_QUEUE_SIZE cq
    (sq.toList.foldl (fun s x => state_cb x s) user_data) hh2 ht2
    (Nat.le_of_lt (cq.pending_lt hh2))
  simp only [mqtt_client_drain_updates, h1, h2]
  exact ⟨trivial, sq.pending_drained, cq.pending_drained⟩

/-- C3 witness: with exactly one pending StateUpdate (device d1, level 50)
and one pending SceneEvent (scene s2), a single drain returns 2, leaves
both queues empty, and the applied callbacks set device d1 level to 50
(other fields untouched) and the active scene to s2. -/
theorem claim_C3_drain_all_witness :
    scenario_sq.WF ∧ scenario_cq.WF
    ∧ (mqtt_client_drain_updates on_state_update on_scene_event scenario_store
        scenario_sq scenario_cq).1 = 2
    ∧ (mqtt_client_drain_updates on_state_update on_scene_event scenario_store
        scenario_sq scenario_cq).2.2.1.pending = 0
    ∧ (mqtt_client_drain_updates on_state_update on_scene_event scenario_store
        scenario_sq scenario_cq).2.2.2.pending = 0
    ∧ (mqtt_client_drain_updates on_state_update on_scene_event scenario_store
        scenario_sq scenario_cq).2.1
      = { data := { room := {}, devices := [{ id := "d1", level := 50 }], scenes := [],
                    active_scene_id := "s2" },
          live := true } := by
  have h := claim_C3_drain_all on_state_update on_scene_event scenario_store
    scenario_sq scenario_cq (by decide) (by decide)
  exact ⟨by decide, by decide, h.1.trans (by decide), h.2.1, h.2.2, by decide⟩

/-- C10: the cross-queue drain order of mqtt_client_drain_updates is
deterministic: the state-update queue is fully drained first (callbacks in
FIFO order), then the scene-event queue (callbacks in FIFO order), as
witnessed by the user state being the scene fold applied after the
complete state fold. -/
theorem claim_C10_drain_order {σ : Type} (state_cb : mqtt_state_update_t → σ → σ)
    (scene_cb : mqtt_scene_event_t → σ → σ) (user_data : σ)
    (sq : state_queue_t) (cq : scene_queue_t) (hsq : sq.WF) (hcq : cq.WF) :
    (mqtt_client_drain_updates state_cb scene_cb user_data sq cq).2.1
      = cq.toList.foldl (fun s e => scene_cb e s)
          (sq.toList.foldl (fun s u => state_cb u s) user_data) := by
  obtain ⟨hb1, hh1, ht1⟩ := hsq
  obtain ⟨hb2, hh2, ht2⟩ := hcq
  have h1 := RingBuf.drainCb_spec state_cb STATE_QUEUE_SIZE sq user_data hh1 ht1
    (Nat.le_of_lt (sq.pending_lt hh1))
  have h2 := RingBuf.drainCb_spec scene_cb SCENE_QUEUE_SIZE cq
    (sq.toList.foldl (fun s x => state_cb x s) user_data) hh2 ht2
    (Nat.le_of_lt (cq.pending_lt hh2))
  simp only [mqtt_client_drain_updates, h1, h2]

/-- C10 witness: tracing the callbacks on one pending update (d1) and one
pending scene event (s2) records the state callback strictly before the
scene callback. -/
theorem claim_C10_drain_order_witness :
    scenario_sq.WF ∧ scenario_cq.WF
    ∧ (mqtt_client_drain_updates
        (fun u l => l ++ [("state:") ++ u.device_id])
        (fun e l => l ++ [("scene:") ++ e.scene_id])
        ([] : List String) scenario_sq scenario_cq).2.1
      = [("state:d1"), ("scene:s2")] := by
  have h := claim_C10_drain_order
    (fun u l => l ++ [("state:") ++ u.device_id])
    (fun e l => l ++ [("scene:") ++ e.scene_id])
    ([] : List String) scenario_sq scenario_cq (by decide) (by decide)
  exact ⟨by decide, by decide, h.trans (by decide)⟩

/-- strstr soundness: a reported index is a real occurrence. -/
theorem strstr_idx_sound (needle : List Char) :
    ∀ (hay : List Char) (i : Nat), strstr_idx needle hay = some i →
      ∃ pre rest : List Char, hay = pre ++ needle ++ rest ∧ pre.length = i
  | [], i, h => by
      simp only [strstr_idx] at h
      split_ifs at h with hp
      have hn : needle = [] := by simpa using hp
      have hi : i = 0 := by simpa using (Option.some_inj.mp h).symm
      exact ⟨[], [], by simp [hn], by simp [hi]⟩
  | c :: t, i, h => by
      simp only [strstr_idx] at h
      split_ifs at h with hp
      · obtain ⟨rest, hrest⟩ := List.isPrefixOf_iff_prefix.mp hp
        have hi : i = 0 := by simpa using (Option.some_inj.mp h).symm
        refine ⟨[], rest, ?_, by simp [hi]⟩
        rw [List.nil_append]
        exact hrest.symm
      · obtain ⟨j, hj, hji⟩ := Option.map_eq_some'.mp h
        obtain ⟨pre, rest, hdec, hlen⟩ := strstr_idx_sound needle t j hj
        refine ⟨c :: pre, rest, ?_, ?_⟩
        · simp [hdec]
        · simp only [List.length_cons, hlen]
          omega

/-- The shared parser succeeds with a given identifier exactly when the
topic starts with the fixed head, the first occurrence of the suffix in
the remainder sits at distance id.length, the identifier is that segment,
and its length is positive and below the buffer size. -/
theorem parse_topic_id_spec (pre sfx : List Char) (topic : String) (size : Nat)
    (id : String) :
    parse_topic_id pre sfx topic size = some id ↔
      (pre.isPrefixOf topic.data ∧
       strstr_idx sfx (topic.data.drop pre.length) = some id.length ∧
       id.data = (topic.data.drop pre.length).take id.length ∧
       0 < id.length ∧ id.length < size) := by
  constructor
  · intro h
    unfold parse_topic_id at h
    split_ifs at h with hp
    · refine ⟨hp, ?_⟩
      rcases hocc : strstr_idx sfx (topic.data.drop pre.length) with _ | len
      · rw [hocc] at h
        exact absurd h (by simp)
      · rw [hocc] at h
        have h2 : (if 0 < len ∧ len < size
            then some (String.mk ((topic.data.drop pre.length).take len))
            else none) = some id := h
        split_ifs at h2 with hcond
        · have hid : id = String.mk ((topic.data.drop pre.length).take len) :=
            (Option.some_inj.mp h2).symm
          obtain ⟨seg, rest, hdec, hlen⟩ :=
            strstr_idx_sound sfx (topic.data.drop pre.length) len hocc
          have hlenle : len ≤ (topic.data.drop pre.length).length := by
            rw [hdec]
            simp only [List.length_append]
            omega
          have hidlen : id.length = len := by
            rw [hid]
            show ((topic.data.drop pre.length).take len).length = len
            simp only [List.length_take]
            omega
          refine ⟨?_, ?_, by omega, by omega⟩
          · rw [hidlen]
          · rw [hidlen, hid]
  · rintro ⟨hp, hocc, hdata, hpos, hsize⟩
    unfold parse_topic_id
    rw [if_pos hp]
    show (match strstr_idx sfx (topic.data.drop pre.length) with
      | none => none
      | some len => if 0 < len ∧ len < size
          then some (String.mk ((topic.data.drop pre.length).take len))
          else none) = some id
    rw [hocc]
    show (if 0 < id.length ∧ id.length < size
        then some (String.mk ((topic.data.drop pre.length).take id.length))
        else none) = some id
    rw [if_pos ⟨hpos, hsize⟩, ← hdata]

/-- A successful parse decomposes the topic as head ++ id ++ suffix ++ rest. -/
theorem parse_topic_id_decomp (pre sfx : List Char) (topic : String) (size : Nat)
    (id : String) (h : parse_topic_id pre sfx topic size = some id) :
    ∃ rest : List Char, topic.data = pre ++ (id.data ++ (sfx ++ rest)) := by
  obtain ⟨hp, hocc, hdata, hpos, hsize⟩ := (parse_topic_id_spec pre sfx topic size id).mp h
  obtain ⟨t, ht⟩ := List.isPrefixOf_iff_prefix.mp hp
  have hdrop : topic.data.drop pre.length = t := by
    rw [← ht, List.drop_left]
  obtain ⟨seg, rest, hdec, hlen⟩ := strstr_idx_sound sfx _ _ hocc
  have hseg : id.data = seg := by
    rw [hdata, hdec, ← hlen, List.append_assoc, List.take_left]
  refine ⟨rest, ?_⟩
  rw [← ht, hseg]
  have ht2 : t = seg ++ sfx ++ rest := by
    rw [← hdrop, hdec]
  rw [ht2, List.append_assoc]

/-- C4: each topic decoder succeeds and extracts the identifier segment
exactly when the topic starts with its fixed head, the fixed suffix occurs
after it (the identifier being the segment before the first occurrence),
and the identifier length is positive and strictly below the buffer size;
a success really decomposes the topic as head ++ id ++ suffix ++ rest.
Concretely the device topic for light-1 decodes to light-1, an empty
identifier fails, and a topic missing the suffix fails. -/
theorem claim_C4_topic_decoder :
    (∀ (topic : String) (size : Nat) (id : String),
      parse_device_topic topic size = some id ↔
        ((("graylogic/core/device/").data.isPrefixOf topic.data) ∧
         strstr_idx (("/state").data) (topic.data.drop 22) = some id.length ∧
         id.data = (topic.data.drop 22).take id.length ∧
         0 < id.length ∧ id.length < size))
    ∧ (∀ (topic : String) (size : Nat) (id : String),
      parse_scene_topic topic size = some id ↔
        ((("graylogic/core/scene/").data.isPrefixOf topic.data) ∧
         strstr_idx (("/activated").data) (topic.data.drop 21) = some id.length ∧
         id.data = (topic.data.drop 21).take id.length ∧
         0 < id.length ∧ id.length < size))
    ∧ (∀ (topic : String) (size : Nat) (id : String),
      parse_device_topic topic size = some id →
        ∃ rest : List Char, topic.data
          = ("graylogic/core/device/").data ++ (id.data ++ (("/state").data ++ rest)))
    ∧ (∀ (topic : String) (size : Nat) (id : String),
      parse_scene_topic topic size = some id →
        ∃ rest : List Char, topic.data
          = ("graylogic/core/scene/").data ++ (id.data ++ (("/activated").data ++ rest)))
    ∧ parse_device_topic ("graylogic/core/device/light-1/state") 48 = some ("light-1")
    ∧ parse_device_topic ("graylogic/core/device//state") 48 = none
    ∧ parse_device_topic ("graylogic/core/device/light-1") 48 = none
    ∧ parse_scene_topic ("graylogic/core/scene/s2/activated") 48 = some ("s2") := by
  refine ⟨?_, ?_, ?_, ?_, by decide, by decide, by decide, by decide⟩
  · exact fun topic size id =>
      parse_topic_id_spec (("graylogic/core/device/").data) (("/state").data) topic size id
  · exact fun topic size id =>
      parse_topic_id_spec (("graylogic/core/scene/").data) (("/activated").data) topic size id
  · exact fun topic size id h =>
      parse_topic_id_decomp (("graylogic/core/device/").data) (("/state").data) topic size id h
  · exact fun topic size id h =>
      parse_topic_id_decomp (("graylogic/core/scene/").data) (("/activated").data) topic size id h

/-- C4 witness: applying the decoder contract at the concrete light-1
topic yields the decomposition with the identifier light-1. -/
theorem claim_C4_topic_decoder_witness :
    parse_device_topic ("graylogic/core/device/light-1/state") 48 = some ("light-1")
    ∧ ∃ rest : List Char, ("graylogic/core/device/light-1/state").data
        = ("graylogic/core/device/").data
          ++ (("light-1").data ++ (("/state").data ++ rest)) :=
  ⟨by decide,
   claim_C4_topic_decoder.2.2.1 ("graylogic/core/device/light-1/state") 48 ("light-1")
     (by decide)⟩

/-- C5 (amended): when the payload fails to parse as JSON, an inbound
message on a decodable device-state topic is dropped (no event enqueued,
queues unchanged, no error), but an inbound message on a decodable
scene-activation topic is still enqueued, with the scene id taken from
the topic and an empty room id; no error propagates in either case. -/
theorem claim_C5_malformed_payload (topic payload : String)
    (sq : state_queue_t) (cq : scene_queue_t) (hpl : ¬ payload.isEmpty) :
    ((parse_device_topic topic 48).isSome →
      on_message topic payload none sq cq = (sq, cq))
    ∧ (∀ sid, parse_device_topic topic 48 = none →
        parse_scene_topic topic 48 = some sid →
        on_message topic payload none sq cq
          = (sq, enqueue_scene cq { scene_id := sid, room_id := "" })) := by
  constructor
  · intro hs
    obtain ⟨id, hid⟩ := Option.isSome_iff_exists.mp hs
    unfold on_message
    rw [if_neg hpl, hid]
  · intro sid hdev hscene
    unfold on_message
    rw [if_neg hpl, hdev, hscene]

/-- C5 counterexample: a scene-activation message whose payload fails to
parse is not dropped — it enqueues one SceneEvent, so the claim that every
successfully decoded topic with an unparseable payload produces no event
is false (it holds only for device-state topics). -/
theorem claim_C5_counterexample :
    (on_message ("graylogic/core/scene/s2/activated") ("notjson") none
        (RingBuf.empty mqtt_state_update_t STATE_QUEUE_SIZE)
        (RingBuf.empty mqtt_scene_event_t SCENE_QUEUE_SIZE)).2.pending = 1
    ∧ on_message ("graylogic/core/scene/s2/activated") ("notjson") none
        (RingBuf.empty mqtt_state_update_t STATE_QUEUE_SIZE)
        (RingBuf.empty mqtt_scene_event_t SCENE_QUEUE_SIZE)
      ≠ (RingBuf.empty mqtt_state_update_t STATE_QUEUE_SIZE,
         RingBuf.empty mqtt_scene_event_t SCENE_QUEUE_SIZE) := by
  constructor
  · decide
  · decide

/-- C5 witness: a device-state message with unparseable payload leaves
both queues unchanged; a scene message with unparseable payload enqueues
the event with empty room id. -/
theorem claim_C5_malformed_payload_witness :
    (¬ ("bad" : String).isEmpty
      ∧ on_message ("graylogic/core/device/d1/state") ("bad") none
          (RingBuf.empty mqtt_state_update_t STATE_QUEUE_SIZE)
          (RingBuf.empty mqtt_scene_event_t SCENE_QUEUE_SIZE)
        = (RingBuf.empty mqtt_state_update_t STATE_QUEUE_SIZE,
           RingBuf.empty mqtt_scene_event_t SCENE_QUEUE_SIZE))
    ∧ on_message ("graylogic/core/scene/s2/activated") ("bad") none
        (RingBuf.empty mqtt_state_update_t STATE_QUEUE_SIZE)
        (RingBuf.empty mqtt_scene_event_t SCENE_QUEUE_SIZE)
      = (RingBuf.empty mqtt_state_update_t STATE_QUEUE_SIZE,
         enqueue_scene (RingBuf.empty mqtt_scene_event_t SCENE_QUEUE_SIZE)
           { scene_id := "s2", room_id := "" }) := by
  refine ⟨⟨by decide, ?_⟩, ?_⟩
  · exact (claim_C5_malformed_payload ("graylogic/core/device/d1/state") ("bad")
      (RingBuf.empty mqtt_state_update_t STATE_QUEUE_SIZE)
      (RingBuf.empty mqtt_scene_event_t SCENE_QUEUE_SIZE) (by decide)).1 (by decide)
  · exact (claim_C5_malformed_payload ("graylogic/core/scene/s2/activated") ("bad")
      (RingBuf.empty mqtt_state_update_t STATE_QUEUE_SIZE)
      (RingBuf.empty mqtt_scene_event_t SCENE_QUEUE_SIZE) (by decide)).2
      ("s2") (by decide) (by decide)

/-- C6: whenever the Room Store is not live, every command dispatcher
(cmd_toggle, cmd_set_level, cmd_set_position, cmd_set_setpoint,
cmd_activate_scene) returns failure immediately and issues no REST
request (and, having no store-writing path, changes no state). -/
theorem claim_C6_commands_suppressed (s : data_store_t) (rest_ok : Bool)
    (device_id scene_id : String) (current_state : Bool)
    (level position : Int) (setpoint : ℚ)
    (h : data_store_is_live s = false) :
    cmd_toggle s rest_ok device_id current_state = (false, [])
    ∧ cmd_set_level s rest_ok device_id level = (false, [])
    ∧ cmd_set_position s rest_ok device_id position = (false, [])
    ∧ cmd_set_setpoint s rest_ok device_id setpoint = (false, [])
    ∧ cmd_activate_scene s rest_ok scene_id = (false, []) := by
  simp [cmd_toggle, cmd_set_level, cmd_set_position, cmd_set_setpoint,
    cmd_activate_scene, h]

/-- C6 witness: on the non-live demo store every command returns failure
and issues no request. -/
theorem claim_C6_commands_suppressed_witness :
    data_store_is_live { data := demo_data_create, live := false } = false
    ∧ cmd_toggle { data := demo_data_create, live := false } true ("d1") true
        = (false, [])
    ∧ cmd_set_setpoint { data := demo_data_create, live := false } true ("d1") 21
        = (false, []) := by
  have h := claim_C6_commands_suppressed
    { data := demo_data_create, live := false } true ("d1") ("s1") true 50 50 21 rfl
  exact ⟨rfl, h.1, h.2.2.2.1⟩

/-- C7: when the loaded configuration is invalid (missing token or room),
app_init takes the FALLBACK path: the store holds exactly the static demo
RoomData — whose device list and scene list are non-empty and whose
active-scene identifier is set (to an existing scene) — and is marked
non-live. -/
theorem claim_C7_boot_fallback (cfg : panel_config_t) (env : rest_env_t)
    (h : panel_config_is_valid cfg = false) :
    app_init cfg env = { data := demo_data_create, live := false }
    ∧ demo_data_create.devices ≠ []
    ∧ demo_data_create.scenes ≠ []
    ∧ demo_data_create.active_scene_id ≠ ""
    ∧ demo_data_create.active_scene_id ∈ demo_data_create.scenes.map scene_t.id := by
  refine ⟨?_, by decide, by decide, by decide, by decide⟩
  simp [app_init, h]

/-- C7 witness: a config with an empty token boots into the demo store,
non-live. -/
theorem claim_C7_boot_fallback_witness :
    panel_config_is_valid { panel_token := "", room_id := "room-1" } = false
    ∧ app_init { panel_token := "", room_id := "room-1" }
        { rooms := [], devices := fun _ => [], scenes := fun _ => ([], "") }
      = { data := demo_data_create, live := false } :=
  ⟨by decide,
   (claim_C7_boot_fallback { panel_token := "", room_id := "room-1" }
     { rooms := [], devices := fun _ => [], scenes := fun _ => ([], "") }
     (by decide)).1⟩

/-- C8 counterexample: the demo dataset does not span every
domain/capability combination — no demo device has the audio domain and
none has the tilt capability (the other domain and the color-temp and
speed capabilities are missing as well). -/
theorem claim_C8_counterexample :
    ((demo_data_create.devices.map (fun d => d.domain)).contains
        device_domain_t.DOMAIN_AUDIO) = false
    ∧ ((demo_data_create.devices.map (fun d => d.capabilities)).flatten.contains
        device_capability_t.CAP_TILT) = false := by
  constructor
  · decide
  · decide

/-- C8 (amended): the FALLBACK demo RoomData is a fixed, self-consistent
dataset — every device and scene references the demo room — with five
devices covering the lighting, blinds and climate domains (audio and
other do not appear) and the on-off, dim, position, temperature-read and
temperature-set capabilities (tilt, color-temp and speed do not appear),
four fixed scenes, and one pre-selected active scene that names an
existing scene. -/
theorem claim_C8_demo_dataset :
    ((demo_data_create.devices.map (fun d => d.domain)).contains
        device_domain_t.DOMAIN_LIGHTING) = true
    ∧ ((demo_data_create.devices.map (fun d => d.domain)).contains
        device_domain_t.DOMAIN_BLINDS) = true
    ∧ ((demo_data_create.devices.map (fun d => d.domain)).contains
        device_domain_t.DOMAIN_CLIMATE) = true
    ∧ ((demo_data_create.devices.map (fun d => d.domain)).contains
        device_domain_t.DOMAIN_AUDIO) = false
    ∧ ((demo_data_create.devices.map (fun d => d.domain)).contains
        device_domain_t.DOMAIN_OTHER) = false
    ∧ ((demo_data_create.devices.map (fun d => d.capabilities)).flatten.contains
        device_capability_t.CAP_ON_OFF) = true
    ∧ ((demo_data_create.devices.map (fun d => d.capabilities)).flatten.contains
        device_capability_t.CAP_DIM) = true
    ∧ ((demo_data_create.devices.map (fun d => d.capabilities)).flatten.contains
        device_capability_t.CAP_POSITION) = true
    ∧ ((demo_data_create.devices.map (fun d => d.capabilities)).flatten.contains
        device_capability_t.CAP_TEMPERATURE_READ) = true
    ∧ ((demo_data_create.devices.map (fun d => d.capabilities)).flatten.contains
        device_capability_t.CAP_TEMPERATURE_SET) = true
    ∧ ((demo_data_create.devices.map (fun d => d.capabilities)).flatten.contains
        device_capability_t.CAP_TILT) = false
    ∧ ((demo_data_create.devices.map (fun d => d.capabilities)).flatten.contains
        device_capability_t.CAP_COLOR_TEMP) = false
    ∧ ((demo_data_create.devices.map (fun d => d.capabilities)).flatten.contains
        device_capability_t.CAP_SPEED) = false
    ∧ demo_data_create.devices.length = 5
    ∧ demo_data_create.scenes.length = 4
    ∧ (demo_data_create.devices.all
        (fun d => d.room_id == demo_data_create.room.id)) = true
    ∧ (demo_data_create.scenes.all
        (fun sc => sc.room_id == demo_data_create.room.id)) = true
    ∧ demo_data_create.active_scene_id = "scene-evening"
    ∧ demo_data_create.active_scene_id ∈ demo_data_create.scenes.map scene_t.id := by
  decide

/-- C9: with a valid config and a non-empty room directory in which no
returned room matches the configured room id, try_live_boot resolves to
the first returned room, logs the substitution, and app_init continues
the live path (live store, no FALLBACK). -/
theorem claim_C9_room_resolution (cfg : panel_config_t) (env : rest_env_t)
    (hv : panel_config_is_valid cfg = true)
    (hne : env.rooms ≠ [])
    (hmiss : ∀ r ∈ rest_load_rooms env, r.id ≠ cfg.room_id) :
    ∃ d : room_data_t,
      (try_live_boot cfg env).1 = some d
      ∧ d.room = (rest_load_rooms env).headD default
      ∧ app_init cfg env = { data := d, live := true }
      ∧ (("[app] room ") ++ cfg.room_id ++ (" not found in hierarchy"))
          ∈ (try_live_boot cfg env).2 := by
  obtain ⟨r0, rest, hr⟩ : ∃ r0 rest, rest_load_rooms env = r0 :: rest := by
    rcases henv : env.rooms with _ | ⟨a, t⟩
    · exact absurd henv hne
    · exact ⟨a, t.take 15, by simp [rest_load_rooms, MAX_ROOMS, henv]⟩
  have hfind : (rest_load_rooms env).findIdx? (fun r => r.id == cfg.room_id) = none := by
    rw [List.findIdx?_eq_none_iff]
    intro r hrm
    simpa using hmiss r hrm
  have hmain : try_live_boot cfg env
      = (some { room := r0, devices := rest_load_devices env r0.id,
                scenes := (rest_load_scenes env r0.id).1,
                active_scene_id := (rest_load_scenes env r0.id).2 },
         [("[app] room ") ++ cfg.room_id ++ (" not found in hierarchy"),
          ("[app] using first room: ") ++ r0.name ++ (" (") ++ r0.id ++ (")"),
          ("[app] live boot: ") ++ r0.name]) := by
    have hfind2 : List.findIdx? (fun r => r.id == cfg.room_id) (r0 :: rest) = none := by
      rw [← hr]
      exact hfind
    unfold try_live_boot
    simp [hv, hr, hfind2]
  refine ⟨{ room := r0, devices := rest_load_devices env r0.id,
            scenes := (rest_load_scenes env r0.id).1,
            active_scene_id := (rest_load_scenes env r0.id).2 }, ?_, ?_, ?_, ?_⟩
  · rw [hmain]
  · rw [hr]
    rfl
  · unfold app_init
    rw [hv, hmain]
    simp
  · rw [hmain]
    exact List.mem_cons_self _ _

/-- C9 witness: directory [A, B] with configured room C resolves to room
A, stays live, and logs the substitution. -/
theorem claim_C9_room_resolution_witness :
    panel_config_is_valid { panel_token := "t", room_id := "C" } = true
    ∧ ((try_live_boot { panel_token := "t", room_id := "C" }
        { rooms := [{ id := "A", name := "RoomA" }, { id := "B", name := "RoomB" }],
          devices := fun _ => [], scenes := fun _ => ([], "") }).1.map
        (fun d => d.room.id)) = some ("A")
    ∧ (app_init { panel_token := "t", room_id := "C" }
        { rooms := [{ id := "A", name := "RoomA" }, { id := "B", name := "RoomB" }],
          devices := fun _ => [], scenes := fun _ => ([], "") }).live = true
    ∧ (∃ d : room_data_t,
        (try_live_boot { panel_token := "t", room_id := "C" }
          { rooms := [{ id := "A", name := "RoomA" }, { id := "B", name := "RoomB" }],
            devices := fun _ => [], scenes := fun _ => ([], "") }).1 = some d
        ∧ d.room = (rest_load_rooms
            { rooms := [{ id := "A", name := "RoomA" }, { id := "B", name := "RoomB" }],
              devices := fun _ => [], scenes := fun _ => ([], "") }).headD default
        ∧ app_init { panel_token := "t", room_id := "C" }
            { rooms := [{ id := "A", name := "RoomA" }, { id := "B", name := "RoomB" }],
              devices := fun _ => [], scenes := fun _ => ([], "") }
          = { data := d, live := true }
        ∧ (("[app] room ") ++ ("C") ++ (" not found in hierarchy"))
            ∈ (try_live_boot { panel_token := "t", room_id := "C" }
                { rooms := [{ id := "A", name := "RoomA" }, { id := "B", name := "RoomB" }],
                  devices := fun _ => [], scenes := fun _ => ([], "") }).2) := by
  refine ⟨by decide, by decide, by decide, ?_⟩
  exact claim_C9_room_resolution { panel_token := "t", room_id := "C" }
    { rooms := [{ id := "A", name := "RoomA" }, { id := "B", name := "RoomB" }],
      devices := fun _ => [], scenes := fun _ => ([], "") }
    (by decide) (by decide) (by decide)
